import Mathlib

/-!
Shallow embedding of the `vismalib` Python library (src/vismalib/model.py,
src/vismalib/store.py, src/vismalib/utils.py) in Lean 4, together with
theorems checking the natural-language specification against it.

Python values that can appear in a decoded JSON payload or in a model
field are embedded as `PyValue`.  The Python `json` module decodes a JSON
`null` to the Python value `None`, and `dict.get(key)` returns `None` both
when the key is absent and when it maps to `None`, so absence and `null`
coincide in the embedding (`PyValue.none`).  Raised Python exceptions are
embedded as `Except.error` over `PyError`.
-/

namespace Vismalib

/-- Python values occurring in decoded JSON payloads and model fields. -/
inductive PyValue where
  | str (s : String)
  | int (n : Int)
  | bool (b : Bool)
  | none
  | dict (fields : List (String × PyValue))
deriving Repr

/-- Python `==` on embedded values (structural on these types). -/
def PyValue.beq : PyValue → PyValue → Bool
  | .str a, .str b => a == b
  | .int a, .int b => a == b
  | .bool a, .bool b => a == b
  | .none, .none => true
  | .dict a, .dict b => beqFields a b
  | _, _ => false
where
  beqFields : List (String × PyValue) → List (String × PyValue) → Bool
    | [], [] => true
    | (k1, v1) :: r1, (k2, v2) :: r2 =>
        k1 == k2 && PyValue.beq v1 v2 && beqFields r1 r2
    | _, _ => false

instance : BEq PyValue := ⟨PyValue.beq⟩

/-- Python exceptions raised (or raisable) by the embedded code.
`ioError` corresponds to the `IOError` the store module tries to raise;
no code path actually reaches it (see `Store.get` below). -/
inductive PyError where
  | valueError (msg : String)
  | typeError (msg : String)
  | attributeError (msg : String)
  | nameError (msg : String)
  | notImplementedError (msg : String)
  | ioError (msg : String)
deriving DecidableEq, Repr

/-- Python truthiness of an embedded value ( `bool(v)` ). -/
def PyValue.truthy : PyValue → Bool
  | .str s => !s.isEmpty
  | .int n => n != 0
  | .bool b => b
  | .none => false
  | .dict fs => !fs.isEmpty

/-- `v is None`. -/
def PyValue.isNone : PyValue → Bool
  | .none => true
  | _ => false

/-- Python type name of a value, used in exception messages. -/
def pyTypeName : PyValue → String
  | .str _ => "str"
  | .int _ => "int"
  | .bool _ => "bool"
  | .none => "NoneType"
  | .dict _ => "dict"

/-- `str(v)`, used when formatting messages and URL segments; the dict
rendering is abbreviated since it is never load-bearing. -/
def pyStr : PyValue → String
  | .str s => s
  | .int n => toString n
  | .bool b => if b then "True" else "False"
  | .none => "None"
  | .dict _ => "dict(...)"

/-- `dict.get(key)` on a decoded JSON object: the value under `key`, or
Python `None` when the key is absent (a JSON `null` value also decodes to
`None`). -/
def dget (json : List (String × PyValue)) (key : String) : PyValue :=
  match json.lookup key with
  | some v => v
  | Option.none => PyValue.none

/-- Python `x or None`: `x` when truthy, else `None`. -/
def pyOrNone (v : PyValue) : PyValue := if v.truthy then v else .none

/-- `len(v)`: defined for strings and dicts, `TypeError` otherwise
(model.py uses it only on country-code values). -/
def pyLen : PyValue → Except PyError Nat
  | .str s => .ok s.length
  | .dict fs => .ok fs.length
  | v => .error (.typeError ("object of type " ++ pyTypeName v ++ " has no len()"))

/-- `str.upper` on the ASCII fragment (which covers country codes):
uppercase every character.  (Same value as `String.map Char.toUpper`,
spelled out over the character list so that it evaluates inside the
kernel.) -/
def strUpper (s : String) : String := String.mk (s.data.map Char.toUpper)

/-- `v.upper()`: only strings have the method, `AttributeError`
otherwise. -/
def pyUpper : PyValue → Except PyError PyValue
  | .str s => .ok (.str (strUpper s))
  | v => .error (.attributeError (pyTypeName v ++ " object has no attribute upper"))

/-- `isOk e` is true when the embedded call returned normally. -/
def isOk {α : Type} : Except PyError α → Bool
  | .ok _ => true
  | .error _ => false

/-- `coalesce(*args)` (model.py 14-17): the first argument that
`is not None`; falls off the loop (returning `None`) when all are. -/
def coalesce : List PyValue → PyValue
  | [] => .none
  | a :: rest =>
    match a with
    | .none => coalesce rest
    | v => v

/-- `validate_country_code(code, use_exceptions)` (model.py 20-32): inside
a `try`, raise `ValueError` when `len(code) != 2` or when
`code.upper() != code`; any exception is re-raised when `use_exceptions`
else turned into `False`; otherwise return `True`.  (`len` and `.upper`
themselves raise `TypeError` / `AttributeError` on unsuitable values, e.g.
`None`, and those are caught by the same `except` clause.) -/
def validate_country_code (code : PyValue) (use_exceptions : Bool) :
    Except PyError Bool :=
  let body : Except PyError Unit :=
    match pyLen code with
    | .error e => .error e
    | .ok n =>
      if n ≠ 2 then
        .error (.valueError ("Country code " ++ pyStr code ++ " is not 2 characters"))
      else
        match pyUpper code with
        | .error e => .error e
        | .ok up =>
          if PyValue.beq up code then .ok ()
          else .error (.valueError ("Country code " ++ pyStr code ++ " is not uppercase"))
  match body with
  | .ok _ => .ok true
  | .error e => if use_exceptions then .error e else .ok false

/-- Spec wording for the country-code invariant: "the country code must be
exactly two characters and uppercase".  Used to compare the specified
acceptance condition with what `Address.__init__` actually accepts. -/
def specValidCountry : PyValue → Bool
  | .str s => s.length == 2 && strUpper s == s
  | _ => false

/-- Abstraction of address fields (model.py 189-234). -/
structure Address where
  name : PyValue
  address : PyValue
  secondary_address : PyValue
  postal_code : PyValue
  city : PyValue
  country : PyValue
deriving Repr

/-- `Address()` with every argument left at its default `None`. -/
def Address.empty : Address :=
  ⟨.none, .none, .none, .none, .none, .none⟩

/-- `Address.__init__` (model.py 210-221): assign the six fields, then,
when `address is not None`, call `validate_country_code(country)` (which
raises on an invalid code, aborting construction). -/
def Address.init (name address secondary_address postal_code city country : PyValue) :
    Except PyError Address :=
  if address.isNone then
    .ok ⟨name, address, secondary_address, postal_code, city, country⟩
  else
    match validate_country_code country true with
    | .error e => .error e
    | .ok _ => .ok ⟨name, address, secondary_address, postal_code, city, country⟩

/-- `Address.__bool__` (model.py 223-231): an address is falsy exactly when
every field `is None`. -/
def Address.toBool (a : Address) : Bool :=
  !(a.name.isNone && a.address.isNone && a.secondary_address.isNone &&
    a.postal_code.isNone && a.city.isNone && a.country.isNone)

/-- `DeliveryMethod` (model.py 161-186): `{id, code, name}`. -/
structure DeliveryMethod where
  id : PyValue
  code : PyValue
  name : PyValue
deriving Repr

/-- `DeliveryTerms` (model.py 161-182): `{id, code, name}`. -/
structure DeliveryTerms where
  id : PyValue
  code : PyValue
  name : PyValue
deriving Repr

/-- `TermsOfPayment` (model.py 237-269). -/
structure TermsOfPayment where
  id : PyValue
  name : PyValue
  english_name : PyValue
  days : PyValue
  type_id : PyValue
  type_text : PyValue
deriving Repr

/-- `TermsOfPayment()` with every argument at its default `None`. -/
def TermsOfPayment.empty : TermsOfPayment :=
  ⟨.none, .none, .none, .none, .none, .none⟩

/-- `TermsOfPayment.from_json` in refresh form (model.py 257-269): calls
`json.get(...)` on the argument and overwrites all six fields; when the
argument is not a dict (e.g. `None`, because the customer payload had a
truthy `TermsOfPaymentId` but no `TermsOfPayment` object) the attribute
lookup of `.get` raises `AttributeError`.  `self` is fully overwritten. -/
def TermsOfPayment.fromJson (_self : TermsOfPayment) (json : PyValue) :
    Except PyError TermsOfPayment :=
  match json with
  | .dict fs =>
    .ok { id := dget fs "Id", name := dget fs "Name",
          english_name := dget fs "NameEnglish", days := dget fs "NumberOfDays",
          type_id := dget fs "TermsOfPaymentId",
          type_text := dget fs "TermsOfPaymentTypeText" }
  | v => .error (.attributeError (pyTypeName v ++ " object has no attribute get"))

/-- Result of `datetime.strptime`. -/
structure PyDatetime where
  year : Nat
  month : Nat
  day : Nat
  hour : Nat
  minute : Nat
  second : Nat
  microsecond : Nat
deriving DecidableEq, Repr

/-- Decimal value of a digit character. -/
def digitVal? (c : Char) : Option Nat :=
  if c.isDigit then some (c.toNat - 48) else Option.none

/-- Value of a non-empty all-digit character list. -/
def decDigits? (cs : List Char) : Option Nat :=
  if cs.isEmpty then Option.none
  else cs.foldl
    (fun acc c =>
      match acc, digitVal? c with
      | some a, some d => some (a * 10 + d)
      | _, _ => Option.none)
    (some 0)

def isLeapYear (y : Nat) : Bool :=
  (y % 4 == 0 && y % 100 != 0) || y % 400 == 0

def daysInMonth (y m : Nat) : Nat :=
  if m == 2 then (if isLeapYear y then 29 else 28)
  else if m == 4 || m == 6 || m == 9 || m == 11 then 30
  else 31

/-- `datetime.strptime(s, "%Y-%m-%dT%H:%M:%S.%f")`, modelled on the
zero-padded fragment of the format: four-digit year, two-digit month, day,
hour, minute and second, and a 1-6 digit microsecond field (zero-padded on
the right), with the range validation `strptime` performs.  Any other
shape raises `ValueError`.  No claim depends on the fine structure of
accepted timestamps; the claims about `Customer.from_json` quantify over
its result. -/
def strptimeIso (s : String) : Except PyError PyDatetime :=
  match s.toList with
  | y1 :: y2 :: y3 :: y4 :: '-' :: m1 :: m2 :: '-' :: d1 :: d2 :: 'T' ::
      h1 :: h2 :: ':' :: mi1 :: mi2 :: ':' :: s1 :: s2 :: '.' :: frac =>
    (match decDigits? [y1, y2, y3, y4], decDigits? [m1, m2], decDigits? [d1, d2],
           decDigits? [h1, h2], decDigits? [mi1, mi2], decDigits? [s1, s2],
           decDigits? frac with
     | some y, some mo, some d, some h, some mi, some se, some f =>
       if frac.length ≤ 6 ∧ 1 ≤ mo ∧ mo ≤ 12 ∧ 1 ≤ d ∧ d ≤ daysInMonth y mo ∧
          h ≤ 23 ∧ mi ≤ 59 ∧ se ≤ 59 then
         .ok ⟨y, mo, d, h, mi, se, f * 10 ^ (6 - frac.length)⟩
       else .error (.valueError ("time data " ++ s ++ " does not match format"))
     | _, _, _, _, _, _, _ =>
       .error (.valueError ("time data " ++ s ++ " does not match format")))
  | _ => .error (.valueError ("time data " ++ s ++ " does not match format"))

/-- `value[:-1]`: drops the final character of a string; the other payload
values are not subscriptable and raise `TypeError`. -/
def pySliceDropLast : PyValue → Except PyError PyValue
  | .str s => .ok (.str (s.dropRight 1))
  | v => .error (.typeError (pyTypeName v ++ " object is not subscriptable"))

/-- `datetime.strptime(v, "%Y-%m-%dT%H:%M:%S.%f")` on a payload value:
`strptime` requires a string argument. -/
def pyStrptime : PyValue → Except PyError PyDatetime
  | .str s => strptimeIso s
  | v => .error (.typeError ("strptime argument must be str, not " ++ pyTypeName v))

/-- Lines 430-434 and 436-440 of model.py: for a timestamp wire value `v`,
`if v is not None:` parse `strptime(v[:-1], "%Y-%m-%dT%H:%M:%S.%f")`,
else leave the local variable `None`. -/
def parseWireTimestamp (v : PyValue) : Except PyError (Option PyDatetime) :=
  if v.isNone then .ok Option.none
  else
    match pySliceDropLast v with
    | .error e => .error e
    | .ok sliced => (pyStrptime sliced).map some

/-- Representation of a customer (model.py 272-473).  Sub-objects that the
Python code stores as either `None` or an instance are embedded with
`Option`. -/
structure Customer where
  id : PyValue
  number : PyValue
  nin : PyValue
  is_company : PyValue
  vat_number : PyValue
  currency : PyValue
  gln : PyValue
  email : PyValue
  phone : PyValue
  mobile_phone : PyValue
  url : PyValue
  note : PyValue
  contact_name : PyValue
  contact_email : PyValue
  contact_phone : PyValue
  contact_mobile_phone : PyValue
  address : Address
  delivery_address : Option Address
  delivery_method : Option DeliveryMethod
  delivery_terms : Option DeliveryTerms
  terms_of_payment : Option TermsOfPayment
  webshop_customer_number : PyValue
  last_invoice_date : Option PyDatetime
  last_edited : Option PyDatetime
  reverse_charge_on_construction_services : PyValue
deriving Repr

/-- `AttrProxy("address.name").__get__` (utils.py 68-90, model.py 339):
resolve `obj.address`, then read its `name` attribute. -/
def Customer.getName (c : Customer) : PyValue := c.address.name

/-- `AttrProxy("address.name").__set__`: resolve `obj.address`, then write
its `name` attribute. -/
def Customer.setName (c : Customer) (v : PyValue) : Customer :=
  { c with address := { c.address with name := v } }

/-- `Customer.__init__` (model.py 341-380), arguments in source order.
The owned invoice address is created eagerly (`Address()`), when the
`address` argument is `None`; afterwards, when `name is not None`, it is
assigned through the `address.name` proxy. -/
def Customer.init
    (id number nin is_company name vat_number currency gln email phone
      mobile_phone url note contact_name contact_email contact_phone
      contact_mobile_phone : PyValue)
    (address delivery_address : Option Address)
    (delivery_method : Option DeliveryMethod)
    (delivery_terms : Option DeliveryTerms)
    (terms_of_payment : Option TermsOfPayment)
    (webshop_customer_number : PyValue)
    (last_invoice_date last_edited : Option PyDatetime)
    (reverse_charge_on_construction_services : PyValue) : Customer :=
  let c : Customer :=
    { id, number, nin, is_company, vat_number, currency, gln, email, phone,
      mobile_phone, url, note, contact_name, contact_email, contact_phone,
      contact_mobile_phone,
      address := match address with
        | some a => a
        | Option.none => Address.empty
      delivery_address, delivery_method, delivery_terms, terms_of_payment,
      webshop_customer_number, last_invoice_date, last_edited,
      reverse_charge_on_construction_services }
  if name.isNone then c else c.setName name

/-- `Customer()` with every argument at its default. -/
def Customer.new : Customer :=
  Customer.init .none .none .none .none .none .none .none .none .none .none
    .none .none .none .none .none .none .none Option.none Option.none
    Option.none Option.none Option.none .none Option.none Option.none .none

/-- Lines 424-428 of model.py, as an effect on `self.terms_of_payment`:
when `TermsOfPaymentId` is truthy, replace a `None` field by a fresh
`TermsOfPayment()` and decode `json.get("TermsOfPayment")` into it (this
raises `AttributeError` when that value is not a dict); otherwise leave the
field alone.  Returns the value of `self.terms_of_payment` after the
block.  `Customer.fromJson` discards this value (line 467 assigns the
local variable `terms_of_payment` instead) but keeps the failure. -/
def Customer.decodeTermsEffect (self : Customer) (json : List (String × PyValue)) :
    Except PyError (Option TermsOfPayment) :=
  if (dget json "TermsOfPaymentId").truthy then
    (TermsOfPayment.fromJson
      (match self.terms_of_payment with
       | Option.none => TermsOfPayment.empty
       | some t => t)
      (dget json "TermsOfPayment")).map some
  else .ok self.terms_of_payment

/-- The delivery `Address` argument tuple built by `Customer.from_json`
(model.py 408-414), as a record. -/
def deliveryAddressOf (json : List (String × PyValue)) : Address :=
  ⟨dget json "DeliveryCustomerName", dget json "DeliveryAddress1",
   dget json "DeliveryAddress2", dget json "DeliveryPostalCode",
   dget json "DeliveryCity", dget json "DeliveryCountryCode"⟩

/-- `Customer.from_json` in refresh form (model.py 392-473):
`self.from_json(json)` on an existing instance; the classmethod form is
`Customer.fromJsonCls`.  The embedding returns the final state of `self`;
a raised exception is an `Except.error` (in Python a partially mutated
`self` would remain, which no claim observes).

Control flow of the source, in order: build the delivery address (its
`Address.__init__` may raise on an invalid country code); build the
delivery method/terms references when their wire ids are truthy; when
`TermsOfPaymentId` is truthy decode `json.get("TermsOfPayment")` into
`self.terms_of_payment` (this may raise `AttributeError`; the decoded
object is discarded below because line 467 assigns the local variable
`terms_of_payment`, which stays `None`); parse the two timestamps when
present (slicing and `strptime` may raise); finally assign every field and
return `self`. -/
def Customer.fromJson (self : Customer) (json : List (String × PyValue)) :
    Except PyError Customer :=
  match Address.init (dget json "DeliveryCustomerName") (dget json "DeliveryAddress1")
      (dget json "DeliveryAddress2") (dget json "DeliveryPostalCode")
      (dget json "DeliveryCity") (dget json "DeliveryCountryCode") with
  | .error e => .error e
  | .ok delivery_address =>
    -- lines 425-428: mutate self.terms_of_payment (value discarded at 467,
    -- where the local variable terms_of_payment, still None, is assigned)
    match Customer.decodeTermsEffect self json with
    | .error e => .error e
    | .ok _self_terms_of_payment =>
      match parseWireTimestamp (dget json "LastInvoiceDate") with
      | .error e => .error e
      | .ok last_invoice_date =>
        match parseWireTimestamp (dget json "ChangedUtc") with
        | .error e => .error e
        | .ok last_edited =>
          .ok { self with
            id := dget json "Id"
            number := dget json "CustomerNumber"
            nin := pyOrNone (dget json "CorporateIdentityNumber")
            is_company := coalesce [dget json "IsPrivatePerson", .bool true]
            vat_number := pyOrNone (dget json "VatNumber")
            currency := dget json "CurrencyCode"
            gln := pyOrNone (dget json "GLN")
            email := pyOrNone (dget json "EmailAddress")
            phone := pyOrNone (dget json "Phone")
            mobile_phone := pyOrNone (dget json "MobilePhone")
            url := pyOrNone (dget json "WwwAddress")
            note := pyOrNone (dget json "Note")
            contact_name := pyOrNone (dget json "ContactPersonName")
            contact_email := pyOrNone (dget json "ContactPersonEmail")
            contact_mobile_phone := pyOrNone (dget json "ContactPersonMobile")
            contact_phone := pyOrNone (dget json "ContactPersonPhone")
            address := { name := dget json "Name"
                         address := dget json "InvoiceAddress1"
                         secondary_address := dget json "InvoiceAddress2"
                         postal_code := dget json "InvoicePostalCode"
                         city := dget json "InvoiceCity"
                         country := dget json "InvoiceCountryCode" }
            -- line 464: self.delivery_address = delivery_address or None
            delivery_address :=
              if delivery_address.toBool then some delivery_address else Option.none
            -- lines 416-422: DeliveryMethod(id=...) / DeliveryTerms(id=...)
            -- when the wire id is truthy, else None
            delivery_method :=
              if (dget json "DeliveryMethodId").truthy then
                some ⟨dget json "DeliveryMethodId", .none, .none⟩
              else Option.none
            delivery_terms :=
              if (dget json "DeliveryTermId").truthy then
                some ⟨dget json "DeliveryTermId", .none, .none⟩
              else Option.none
            -- line 467 assigns the local variable of line 424, still None
            terms_of_payment := Option.none
            webshop_customer_number := pyOrNone (dget json "WebshopCustomerNumber")
            last_invoice_date := last_invoice_date
            last_edited := last_edited
            reverse_charge_on_construction_services :=
              dget json "ReverseChargeOnConstructionServices" }

/-- `Customer.from_json(json)` called on the class: the `self is None`
branch first creates a fresh instance with `cls()`. -/
def Customer.fromJsonCls (json : List (String × PyValue)) : Except PyError Customer :=
  Customer.fromJson Customer.new json

/-! ## The store layer (src/vismalib/store.py) -/

/-- An HTTP request descriptor, as built by the `_visma_*` methods:
method, URL, and the optional JSON body handed to `requests`. -/
structure RequestDescriptor where
  method : String
  url : String
  jsonBody : Option (List (String × PyValue))
deriving Repr

/-- A transport response, the minimal shape the Store depends on: a status
code, the decoded JSON body (`response.json()`), and the raw body
(`response.content`).  The transport client is modelled as a function from
request descriptors to responses. -/
structure Response where
  status_code : Nat
  jsonBody : List (String × PyValue)
  content : String

/-- `Customer.__visma_path__` (model.py 304). -/
def Customer.visma_path : Option String := some "customers"

/-- `Customer.__visma_methods__` (model.py 305). -/
def Customer.visma_methods : List String := ["get", "add", "update"]

/-- `VismaModel.has_support` for `Customer` (model.py 54-56). -/
def Customer.has_support (method : String) : Bool :=
  Customer.visma_methods.contains method

/-- `VismaModel._visma_get_path(*args)` for `Customer` (model.py 82-89):
`ValueError` when `__visma_path__` is `None`, else the slash-join of the
path and the stringified arguments. -/
def Customer.visma_get_path (args : List String) : Except PyError String :=
  match Customer.visma_path with
  | Option.none => .error (.valueError "__visma_path__ is not defined for Customer")
  | some p => .ok (String.intercalate "/" (p :: args))

/-- `Customer.to_json` (model.py 382-390): a stub that returns `{}`. -/
def Customer.to_json (_self : Customer) : List (String × PyValue) := []

/-- `VismaModel._visma_get(id)` for `Customer` (model.py 103-117). -/
def Customer.visma_get (id : PyValue) : Except PyError RequestDescriptor :=
  if !Customer.has_support "get" then
    .error (.notImplementedError "Getting Customer is not supported")
  else if Customer.visma_path.isNone then
    .error (.valueError "__visma_path__ is not defined for Customer")
  else
    match Customer.visma_get_path [pyStr id] with
    | .error e => .error e
    | .ok url => .ok ⟨"GET", url, Option.none⟩

/-- `VismaModel._visma_add(self)` for a `Customer` (model.py 119-133). -/
def Customer.visma_add (self : Customer) : Except PyError RequestDescriptor :=
  if !Customer.has_support "add" then
    .error (.notImplementedError "Adding Customer is not supported")
  else if Customer.visma_path.isNone then
    .error (.valueError "__visma_path__ is not defined for Customer")
  else
    match Customer.visma_get_path [] with
    | .error e => .error e
    | .ok url => .ok ⟨"POST", url, some self.to_json⟩

/-- The request descriptor `Store.get(Customer, id)` sends (what
`Customer.visma_get` successfully returns). -/
def Customer.getRequest (id : PyValue) : RequestDescriptor :=
  ⟨"GET", String.intercalate "/" ["customers", pyStr id], Option.none⟩

/-- The request descriptor `Store.add(obj)` sends for a `Customer` (what
`Customer.visma_add` successfully returns). -/
def Customer.addRequest (self : Customer) : RequestDescriptor :=
  ⟨"POST", String.intercalate "/" ["customers"], some self.to_json⟩

/-- `Store.get(Customer, id)` (store.py 141-160).  On a non-success status
the source raises `IOError("Failed to get ... : ...".format(name=...,
id=id, content=request.content))`; the format arguments are evaluated
first, and no name `request` is bound anywhere in store.py (the response
lives in the local `response`), so evaluating `request.content` raises
`NameError` before the `IOError` is ever constructed.  On status 200 the
JSON body is decoded through `Customer.from_json` (classmethod form). -/
def Store.get (client : RequestDescriptor → Response) (id : PyValue) :
    Except PyError Customer :=
  match Customer.visma_get id with
  | .error e => .error e
  | .ok desc =>
    let response := client desc
    if response.status_code ≠ 200 then
      .error (.nameError "name request is not defined")
    else
      Customer.fromJsonCls response.jsonBody

/-- `Store.add(obj)` for a `Customer` (store.py 162-178).  The non-success
branch raises the same `NameError` as `Store.get` (it too formats
`request.content` with no name `request` bound).  On success the method
runs `obj.from_json(response.json())`, refreshing `obj` in place, and
falls off the end of the body: there is no `return` statement, so the
Python return value is `None`.  The embedding returns the pair of the
final state of `obj` and that return value (`Option.none` for `None`). -/
def Store.add (client : RequestDescriptor → Response) (obj : Customer) :
    Except PyError (Customer × Option Customer) :=
  match Customer.visma_add obj with
  | .error e => .error e
  | .ok desc =>
    let response := client desc
    if response.status_code ≠ 200 then
      .error (.nameError "name request is not defined")
    else
      match obj.fromJson response.jsonBody with
      | .error e => .error e
      | .ok refreshed => .ok (refreshed, Option.none)

/-! ## Concrete fixtures used by counterexamples and witnesses -/

/-- Spec wording for C4: the wire value is the empty string or JSON null
(the latter indistinguishable from an absent key after decoding). -/
def emptyOrNull (v : PyValue) : Prop := v = .str "" ∨ v = .none

/-- Response body for the C2 fixtures: the server echoes the stored
customer with its assigned identity. -/
def c2Body : List (String × PyValue) :=
  [("Id", .str "abc-123"), ("Name", .str "Acme"), ("IsPrivatePerson", .bool false)]

/-- A transport client whose response to every request is 200 with
`c2Body`. -/
def c2Client : RequestDescriptor → Response := fun _ => ⟨200, c2Body, "(body)"⟩

/-- The state of a fresh `Customer` after refreshing it from `c2Body`. -/
def c2Refreshed : Customer :=
  { Customer.new with
    id := .str "abc-123"
    is_company := .bool false
    address := { Address.empty with name := .str "Acme" } }

/-- Response body for the C3 success fixture. -/
def c3Body : List (String × PyValue) :=
  [("Id", .str "beta-7"), ("Name", .str "Beta")]

/-- A transport client answering 200 with `c3Body`. -/
def c3Client200 : RequestDescriptor → Response := fun _ => ⟨200, c3Body, "(body)"⟩

/-- A transport client answering 404. -/
def c3Client404 : RequestDescriptor → Response := fun _ => ⟨404, [], "Not found"⟩

/-- The customer decoded from `c3Body`. -/
def c3Decoded : Customer :=
  { Customer.new with
    id := .str "beta-7"
    is_company := .bool true
    address := { Address.empty with name := .str "Beta" } }

/-- C4 fixture: every scalar wire field of the claim set to the empty
string. -/
def c4Payload : List (String × PyValue) :=
  [("CustomerNumber", .str ""), ("CorporateIdentityNumber", .str ""),
   ("CurrencyCode", .str ""), ("VatNumber", .str ""), ("GLN", .str ""),
   ("EmailAddress", .str ""), ("Phone", .str ""), ("MobilePhone", .str ""),
   ("WwwAddress", .str ""), ("Note", .str ""), ("ContactPersonName", .str ""),
   ("ContactPersonEmail", .str ""), ("ContactPersonMobile", .str ""),
   ("ContactPersonPhone", .str ""), ("WebshopCustomerNumber", .str ""),
   ("Name", .str ""), ("InvoiceAddress1", .str "")]

/-- The customer decoded from `c4Payload`: the `or None` fields collapse
to `None`, while `number`, `currency` and the invoice-address fields keep
the empty string. -/
def c4Decoded : Customer :=
  { Customer.new with
    number := .str ""
    is_company := .bool true
    currency := .str ""
    address := { Address.empty with name := .str "", address := .str "" } }

/-- C5 fixture: a truthy `TermsOfPaymentId` together with a
`TermsOfPayment` sub-object. -/
def c5Payload : List (String × PyValue) :=
  [("TermsOfPaymentId", .int 1),
   ("TermsOfPayment", .dict [("Id", .int 1), ("Name", .str "Net 30")])]

/-- The customer decoded from `c5Payload`: the decoded sub-object is
discarded. -/
def c5Decoded : Customer :=
  { Customer.new with is_company := .bool true }

/-- C6 fixture: exactly one delivery-prefixed wire field present. -/
def c6Payload : List (String × PyValue) := [("DeliveryCity", .str "Lund")]

/-- The customer decoded from `c6Payload`. -/
def c6DecodedPresent : Customer :=
  { Customer.new with
    is_company := .bool true
    delivery_address := some ⟨.none, .none, .none, .none, .str "Lund", .none⟩ }

/-- The customer decoded from the empty payload (all delivery fields
absent). -/
def c6DecodedAbsent : Customer :=
  { Customer.new with is_company := .bool true }

/-! ## Helper lemmas -/

theorem PyValue.isNone_iff (v : PyValue) : v.isNone = true ↔ v = PyValue.none := by
  cases v <;> simp [PyValue.isNone]

theorem PyValue.isNone_eq_false (v : PyValue) : v.isNone = false ↔ v ≠ PyValue.none := by
  cases v <;> simp [PyValue.isNone]

/-- `validate_country_code(code)` (with exceptions enabled) succeeds exactly
on the strings the spec describes: two characters, upper-invariant. -/
theorem isOk_validate (co : PyValue) :
    isOk (validate_country_code co true) = specValidCountry co := by
  cases co <;>
    simp [validate_country_code, pyLen, pyUpper, specValidCountry, isOk]
  case str s =>
    by_cases h2 : s.length = 2
    · simp only [h2, ne_eq, not_true_eq_false, if_false, ite_false, reduceIte]
      by_cases hu : strUpper s = s
      · simp [PyValue.beq, hu, isOk]
      · simp [PyValue.beq, hu, isOk]
    · simp [h2, isOk]
  case dict fs =>
    by_cases h2 : fs.length = 2
    · simp [h2, isOk]
    · simp [h2, isOk]

theorem Address.init_ok {n a s p ci co : PyValue} {da : Address}
    (h : Address.init n a s p ci co = .ok da) : da = ⟨n, a, s, p, ci, co⟩ := by
  unfold Address.init at h
  split at h
  · exact (Except.ok.inj h).symm
  · split at h
    · exact Except.noConfusion h
    · exact (Except.ok.inj h).symm

/-- With a street address present, `Address.__init__` succeeds exactly when
the country code passes `validate_country_code`. -/
theorem Address.isOk_init {n a s p ci co : PyValue} (h : a ≠ PyValue.none) :
    isOk (Address.init n a s p ci co) = specValidCountry co := by
  rw [← isOk_validate co]
  unfold Address.init
  rw [(PyValue.isNone_eq_false a).mpr h]
  simp only [Bool.false_eq_true, if_false, reduceIte]
  cases hv : validate_country_code co true <;> simp [hv, isOk]

theorem Address.toBool_eq_false_iff (a : Address) :
    a.toBool = false ↔
      (a.name = PyValue.none ∧ a.address = PyValue.none ∧
       a.secondary_address = PyValue.none ∧ a.postal_code = PyValue.none ∧
       a.city = PyValue.none ∧ a.country = PyValue.none) := by
  simp [Address.toBool, PyValue.isNone_iff, and_assoc]

/-- Inversion of a successful `Customer.from_json` run: every field of the
result in terms of the wire payload (the two timestamps excepted, which no
claim constrains). -/
theorem Customer.fromJson_ok (self : Customer) (json : List (String × PyValue))
    (c : Customer) (h : Customer.fromJson self json = .ok c) :
    c.id = dget json "Id" ∧
    c.number = dget json "CustomerNumber" ∧
    c.nin = pyOrNone (dget json "CorporateIdentityNumber") ∧
    c.is_company = coalesce [dget json "IsPrivatePerson", PyValue.bool true] ∧
    c.vat_number = pyOrNone (dget json "VatNumber") ∧
    c.currency = dget json "CurrencyCode" ∧
    c.gln = pyOrNone (dget json "GLN") ∧
    c.email = pyOrNone (dget json "EmailAddress") ∧
    c.phone = pyOrNone (dget json "Phone") ∧
    c.mobile_phone = pyOrNone (dget json "MobilePhone") ∧
    c.url = pyOrNone (dget json "WwwAddress") ∧
    c.note = pyOrNone (dget json "Note") ∧
    c.contact_name = pyOrNone (dget json "ContactPersonName") ∧
    c.contact_email = pyOrNone (dget json "ContactPersonEmail") ∧
    c.contact_mobile_phone = pyOrNone (dget json "ContactPersonMobile") ∧
    c.contact_phone = pyOrNone (dget json "ContactPersonPhone") ∧
    c.address = ⟨dget json "Name", dget json "InvoiceAddress1",
      dget json "InvoiceAddress2", dget json "InvoicePostalCode",
      dget json "InvoiceCity", dget json "InvoiceCountryCode"⟩ ∧
    c.delivery_address = (if (deliveryAddressOf json).toBool then
      some (deliveryAddressOf json) else Option.none) ∧
    c.terms_of_payment = Option.none ∧
    c.webshop_customer_number = pyOrNone (dget json "WebshopCustomerNumber") ∧
    c.reverse_charge_on_construction_services
      = dget json "ReverseChargeOnConstructionServices" := by
  unfold Customer.fromJson at h
  cases hda : Address.init (dget json "DeliveryCustomerName") (dget json "DeliveryAddress1")
      (dget json "DeliveryAddress2") (dget json "DeliveryPostalCode")
      (dget json "DeliveryCity") (dget json "DeliveryCountryCode") with
  | error e => rw [hda] at h; exact Except.noConfusion h
  | ok da =>
    rw [hda] at h
    cases htop : Customer.decodeTermsEffect self json with
    | error e => rw [htop] at h; exact Except.noConfusion h
    | ok tp =>
      rw [htop] at h
      cases hlid : parseWireTimestamp (dget json "LastInvoiceDate") with
      | error e => rw [hlid] at h; exact Except.noConfusion h
      | ok lid =>
        rw [hlid] at h
        cases hled : parseWireTimestamp (dget json "ChangedUtc") with
        | error e => rw [hled] at h; exact Except.noConfusion h
        | ok led =>
          rw [hled] at h
          have hda' : da = deliveryAddressOf json := Address.init_ok hda
          subst hda'
          have hc := Except.ok.inj h
          subst hc
          exact ⟨rfl, rfl, rfl, rfl, rfl, rfl, rfl, rfl, rfl, rfl, rfl, rfl,
            rfl, rfl, rfl, rfl, rfl, rfl, rfl, rfl, rfl⟩

/-- A wire value that is the empty string or `null`/absent is falsy, so
`x or None` collapses it to `None`. -/
theorem pyOrNone_of_emptyOrNull (v : PyValue) (h : emptyOrNull v) :
    pyOrNone v = PyValue.none := by
  rcases h with rfl | rfl <;> rfl

/-! ## Claims -/

/-- C1 (code bug): the claim says `is_company` decodes as the logical
negation of the wire `IsPrivatePerson` flag.  Line 445 of model.py instead
copies the flag unnegated (`coalesce(json.get("IsPrivatePerson"), True)`),
contradicting the field's own docstring ("True if customer is a company"):
decoding a payload with `IsPrivatePerson = true` yields
`is_company = true` where the claim requires `false` (first conjunct).
The absent case does default to `true` as claimed (second conjunct). -/
theorem c1_is_company_copied_not_negated :
    (Customer.fromJsonCls [("IsPrivatePerson", PyValue.bool true)]).map Customer.is_company
      = Except.ok (PyValue.bool true) ∧
    (Customer.fromJsonCls ([] : List (String × PyValue))).map Customer.is_company
      = Except.ok (PyValue.bool true) :=
  ⟨rfl, rfl⟩

/-- C2 (amended): for every customer and every transport client whose
response to the add request has success status and decodes, `Store.add`
refreshes the instance in place from the response JSON (so server-assigned
fields populate the caller's object), but it returns Python `None`: the
method body has no return statement.  The original claim's "returns that
same instance obj (not None)" is refuted by `c2_counterexample`. -/
theorem c2_add_mutates_and_returns_none (client : RequestDescriptor → Response)
    (obj refreshed : Customer)
    (hstatus : (client (Customer.addRequest obj)).status_code = 200)
    (hdecode : obj.fromJson (client (Customer.addRequest obj)).jsonBody
      = .ok refreshed) :
    Store.add client obj = .ok (refreshed, Option.none) := by
  have hdesc : Customer.visma_add obj = Except.ok (Customer.addRequest obj) := rfl
  simp [Store.add, hdesc, hstatus, hdecode]

/-- C2 counterexample: at a concrete successful add, the value returned by
`Store.add` is Python `None` (second component `Option.none`), not the
instance, so "add returns that same instance obj (not None)" is false; the
first conjunct shows the instance itself was nevertheless refreshed (the
server-assigned id is populated). -/
theorem c2_counterexample :
    (Store.add c2Client Customer.new).map Prod.snd = Except.ok Option.none ∧
    (Store.add c2Client Customer.new).map (fun r => r.1.id)
      = Except.ok (PyValue.str "abc-123") :=
  ⟨rfl, rfl⟩

/-- C2 witness: the amended theorem applied to the concrete 200-client. -/
theorem c2_witness :
    Store.add c2Client Customer.new = Except.ok (c2Refreshed, Option.none) :=
  c2_add_mutates_and_returns_none c2Client Customer.new c2Refreshed rfl rfl

/-- C3 (amended): on a non-success status `Store.get` does raise, but the
raised exception is the `NameError` produced by evaluating the undefined
name `request` while formatting the intended `IOError` message, so it is
not an error carrying the HTTP status code and the raw response body; on
status 200 with a JSON body the decoded instance is returned. -/
theorem c3_get_error_contract (client : RequestDescriptor → Response) (id : PyValue)
    (c : Customer) :
    ((client (Customer.getRequest id)).status_code ≠ 200 →
      Store.get client id = .error (.nameError "name request is not defined")) ∧
    ((client (Customer.getRequest id)).status_code = 200 →
      Customer.fromJsonCls (client (Customer.getRequest id)).jsonBody = .ok c →
      Store.get client id = .ok c) := by
  have hdesc : Customer.visma_get id = Except.ok (Customer.getRequest id) := rfl
  constructor
  · intro hne
    simp [Store.get, hdesc, hne]
  · intro h200 hdec
    simp [Store.get, hdesc, h200, hdec]

/-- C3 counterexample: against a mocked transport returning status 404,
`Store.get` raises the `NameError` for the unbound variable `request` — an
error that mentions neither the status 404 nor the body "Not found" — and
not a transport error carrying both, so the claim as stated is false. -/
theorem c3_counterexample :
    Store.get c3Client404 (PyValue.str "some-id")
      = Except.error (PyError.nameError "name request is not defined") :=
  rfl

/-- C3 witness: the amended contract applied to concrete 404 and 200
clients. -/
theorem c3_witness :
    Store.get c3Client404 (PyValue.str "beta-7")
      = Except.error (PyError.nameError "name request is not defined") ∧
    Store.get c3Client200 (PyValue.str "beta-7") = Except.ok c3Decoded :=
  ⟨(c3_get_error_contract c3Client404 (PyValue.str "beta-7") c3Decoded).1 (by decide),
   (c3_get_error_contract c3Client200 (PyValue.str "beta-7") c3Decoded).2 rfl rfl⟩

/-- C4 (amended): on a successful decode, the scalar fields that the code
guards with `or None` (`nin`, `vat_number`, `gln`, `email`, `phone`,
`mobile_phone`, `url`, `note`, the four contact fields and
`webshop_customer_number`) do normalize an empty-string or null/absent
wire value to `None` — but `number`, `currency` and the six invoice
address fields are copied raw, so for them an empty string stays an empty
string.  The original claim (which listed `number`, `currency` and the
invoice address fields among the normalized ones) is refuted by
`c4_counterexample`. -/
theorem c4_scalar_normalization (self : Customer) (json : List (String × PyValue))
    (c : Customer) (h : Customer.fromJson self json = .ok c) :
    (emptyOrNull (dget json "CorporateIdentityNumber") → c.nin = PyValue.none) ∧
    (emptyOrNull (dget json "VatNumber") → c.vat_number = PyValue.none) ∧
    (emptyOrNull (dget json "GLN") → c.gln = PyValue.none) ∧
    (emptyOrNull (dget json "EmailAddress") → c.email = PyValue.none) ∧
    (emptyOrNull (dget json "Phone") → c.phone = PyValue.none) ∧
    (emptyOrNull (dget json "MobilePhone") → c.mobile_phone = PyValue.none) ∧
    (emptyOrNull (dget json "WwwAddress") → c.url = PyValue.none) ∧
    (emptyOrNull (dget json "Note") → c.note = PyValue.none) ∧
    (emptyOrNull (dget json "ContactPersonName") → c.contact_name = PyValue.none) ∧
    (emptyOrNull (dget json "ContactPersonEmail") → c.contact_email = PyValue.none) ∧
    (emptyOrNull (dget json "ContactPersonMobile") → c.contact_mobile_phone = PyValue.none) ∧
    (emptyOrNull (dget json "ContactPersonPhone") → c.contact_phone = PyValue.none) ∧
    (emptyOrNull (dget json "WebshopCustomerNumber") → c.webshop_customer_number = PyValue.none) ∧
    c.number = dget json "CustomerNumber" ∧
    c.currency = dget json "CurrencyCode" ∧
    c.address.name = dget json "Name" ∧
    c.address.address = dget json "InvoiceAddress1" ∧
    c.address.secondary_address = dget json "InvoiceAddress2" ∧
    c.address.postal_code = dget json "InvoicePostalCode" ∧
    c.address.city = dget json "InvoiceCity" ∧
    c.address.country = dget json "InvoiceCountryCode" := by
  obtain ⟨-, hnum, hnin, -, hvat, hcur, hgln, hemail, hphone, hmob, hurl, hnote,
    hcn, hce, hcm, hcp, haddr, -, -, hweb, -⟩ := Customer.fromJson_ok self json c h
  exact ⟨fun hv => by rw [hnin]; exact pyOrNone_of_emptyOrNull _ hv,
    fun hv => by rw [hvat]; exact pyOrNone_of_emptyOrNull _ hv,
    fun hv => by rw [hgln]; exact pyOrNone_of_emptyOrNull _ hv,
    fun hv => by rw [hemail]; exact pyOrNone_of_emptyOrNull _ hv,
    fun hv => by rw [hphone]; exact pyOrNone_of_emptyOrNull _ hv,
    fun hv => by rw [hmob]; exact pyOrNone_of_emptyOrNull _ hv,
    fun hv => by rw [hurl]; exact pyOrNone_of_emptyOrNull _ hv,
    fun hv => by rw [hnote]; exact pyOrNone_of_emptyOrNull _ hv,
    fun hv => by rw [hcn]; exact pyOrNone_of_emptyOrNull _ hv,
    fun hv => by rw [hce]; exact pyOrNone_of_emptyOrNull _ hv,
    fun hv => by rw [hcm]; exact pyOrNone_of_emptyOrNull _ hv,
    fun hv => by rw [hcp]; exact pyOrNone_of_emptyOrNull _ hv,
    fun hv => by rw [hweb]; exact pyOrNone_of_emptyOrNull _ hv,
    hnum, hcur,
    by rw [haddr], by rw [haddr], by rw [haddr], by rw [haddr], by rw [haddr],
    by rw [haddr]⟩

/-- C4 counterexample: a payload with `CustomerNumber` set to the empty
string decodes to `number = ""` — an empty string, not an unset value —
because line 443 of model.py copies the field without `or None`, refuting
the claim's inclusion of `number` among the normalized fields. -/
theorem c4_counterexample :
    (Customer.fromJsonCls [("CustomerNumber", PyValue.str "")]).map Customer.number
      = Except.ok (PyValue.str "") ∧
    PyValue.str "" ≠ PyValue.none :=
  ⟨rfl, fun hh => PyValue.noConfusion hh⟩

/-- C4 witness: the amended theorem applied to the concrete all-empty
payload: the `or None` field `nin` collapses to `None`, while `number`
keeps the empty string. -/
theorem c4_witness :
    c4Decoded.nin = PyValue.none ∧ c4Decoded.number = PyValue.str "" :=
  have hmain := c4_scalar_normalization Customer.new c4Payload c4Decoded rfl
  ⟨hmain.1 (Or.inl rfl),
   hmain.2.2.2.2.2.2.2.2.2.2.2.2.2.1⟩

/-- C5: after any successful `Customer.from_json` run, on any payload and
in either calling mode, `terms_of_payment` is `None`: the sub-object
decoded into `self.terms_of_payment` at lines 425-428 is discarded when
line 467 assigns the local variable `terms_of_payment`, which was set to
`None` at line 424 and never updated. -/
theorem c5_terms_of_payment_always_none (self : Customer)
    (json : List (String × PyValue)) (c : Customer)
    (h : Customer.fromJson self json = .ok c) :
    c.terms_of_payment = Option.none := by
  obtain ⟨-, -, -, -, -, -, -, -, -, -, -, -, -, -, -, -, -, -, htop, -, -⟩ :=
    Customer.fromJson_ok self json c h
  exact htop

/-- C5 witness: the theorem applied to a payload carrying a truthy
`TermsOfPaymentId` and a `TermsOfPayment` sub-object. -/
theorem c5_witness : c5Decoded.terms_of_payment = Option.none :=
  c5_terms_of_payment_always_none Customer.new c5Payload c5Decoded rfl

/-- The delivery address built by `Customer.from_json` is falsy exactly
when every delivery-prefixed wire field is null/absent. -/
theorem deliveryAddressOf_toBool_false_iff (json : List (String × PyValue)) :
    (deliveryAddressOf json).toBool = false ↔
      (dget json "DeliveryCustomerName" = PyValue.none ∧
       dget json "DeliveryAddress1" = PyValue.none ∧
       dget json "DeliveryAddress2" = PyValue.none ∧
       dget json "DeliveryPostalCode" = PyValue.none ∧
       dget json "DeliveryCity" = PyValue.none ∧
       dget json "DeliveryCountryCode" = PyValue.none) := by
  simpa [deliveryAddressOf] using
    Address.toBool_eq_false_iff (deliveryAddressOf json)

/-- C6: on a successful decode, when every delivery-prefixed wire field is
absent the always-constructed delivery `Address` is falsy and line 464
(`delivery_address or None`) collapses it to unset; when at least one is
present, `delivery_address` is the `Address` built from those fields. -/
theorem c6_delivery_address_collapse (self : Customer)
    (json : List (String × PyValue)) (c : Customer)
    (h : Customer.fromJson self json = .ok c) :
    ((dget json "DeliveryCustomerName" = PyValue.none ∧
      dget json "DeliveryAddress1" = PyValue.none ∧
      dget json "DeliveryAddress2" = PyValue.none ∧
      dget json "DeliveryPostalCode" = PyValue.none ∧
      dget json "DeliveryCity" = PyValue.none ∧
      dget json "DeliveryCountryCode" = PyValue.none) →
      c.delivery_address = Option.none) ∧
    ((dget json "DeliveryCustomerName" ≠ PyValue.none ∨
      dget json "DeliveryAddress1" ≠ PyValue.none ∨
      dget json "DeliveryAddress2" ≠ PyValue.none ∨
      dget json "DeliveryPostalCode" ≠ PyValue.none ∨
      dget json "DeliveryCity" ≠ PyValue.none ∨
      dget json "DeliveryCountryCode" ≠ PyValue.none) →
      c.delivery_address = some (deliveryAddressOf json)) := by
  obtain ⟨-, -, -, -, -, -, -, -, -, -, -, -, -, -, -, -, -, hdel, -, -, -⟩ :=
    Customer.fromJson_ok self json c h
  constructor
  · intro hall
    have hb : (deliveryAddressOf json).toBool = false :=
      (deliveryAddressOf_toBool_false_iff json).mpr hall
    simp [hdel, hb]
  · intro hany
    have hb : (deliveryAddressOf json).toBool = true := by
      cases htb : (deliveryAddressOf json).toBool with
      | true => rfl
      | false =>
        obtain ⟨h1, h2, h3, h4, h5, h6⟩ :=
          (deliveryAddressOf_toBool_false_iff json).mp htb
        rcases hany with ha | ha | ha | ha | ha | ha
        · exact absurd h1 ha
        · exact absurd h2 ha
        · exact absurd h3 ha
        · exact absurd h4 ha
        · exact absurd h5 ha
        · exact absurd h6 ha
    simp [hdel, hb]

/-- C6 witness: the theorem applied to the empty payload (all delivery
fields absent: delivery address unset) and to a payload with exactly one
delivery field (`DeliveryCity`) present. -/
theorem c6_witness :
    c6DecodedAbsent.delivery_address = Option.none ∧
    c6DecodedPresent.delivery_address
      = some ⟨PyValue.none, PyValue.none, PyValue.none, PyValue.none,
          PyValue.str "Lund", PyValue.none⟩ :=
  ⟨(c6_delivery_address_collapse Customer.new ([] : List (String × PyValue))
      c6DecodedAbsent rfl).1 ⟨rfl, rfl, rfl, rfl, rfl, rfl⟩,
   (c6_delivery_address_collapse Customer.new c6Payload c6DecodedPresent rfl).2
      (Or.inr (Or.inr (Or.inr (Or.inr (Or.inl (fun hh => PyValue.noConfusion hh))))))⟩

/-- C7: with a non-null street address, `Address.__init__` succeeds exactly
when the country code satisfies the specified invariant
(`specValidCountry`: a string of exactly two characters, invariant under
uppercasing); in particular a lowercase or 3-character code is rejected
with an exception (see `c7_witness`). -/
theorem c7_address_country_validation
    (name secondary_address postal_code city address country : PyValue)
    (h : address ≠ PyValue.none) :
    isOk (Address.init name address secondary_address postal_code city country)
      = specValidCountry country :=
  Address.isOk_init h

/-- C7 witness: the theorem applied with a concrete street address and the
codes "SE" (accepted), "se" and "SWE" (both rejected). -/
theorem c7_witness :
    isOk (Address.init PyValue.none (PyValue.str "Main St 1") PyValue.none
      PyValue.none PyValue.none (PyValue.str "SE")) = true ∧
    isOk (Address.init PyValue.none (PyValue.str "Main St 1") PyValue.none
      PyValue.none PyValue.none (PyValue.str "se")) = false ∧
    isOk (Address.init PyValue.none (PyValue.str "Main St 1") PyValue.none
      PyValue.none PyValue.none (PyValue.str "SWE")) = false :=
  ⟨(c7_address_country_validation PyValue.none PyValue.none PyValue.none PyValue.none
      (PyValue.str "Main St 1") (PyValue.str "SE")
      (fun hh => PyValue.noConfusion hh)).trans (by rfl),
   (c7_address_country_validation PyValue.none PyValue.none PyValue.none PyValue.none
      (PyValue.str "Main St 1") (PyValue.str "se")
      (fun hh => PyValue.noConfusion hh)).trans (by rfl),
   (c7_address_country_validation PyValue.none PyValue.none PyValue.none PyValue.none
      (PyValue.str "Main St 1") (PyValue.str "SWE")
      (fun hh => PyValue.noConfusion hh)).trans (by rfl)⟩

/-- C8: an `Address` is falsy exactly when all six of its fields are unset
(`None`), and truthy otherwise. -/
theorem c8_address_truthiness (a : Address) :
    a.toBool = false ↔
      (a.name = PyValue.none ∧ a.address = PyValue.none ∧
       a.secondary_address = PyValue.none ∧ a.postal_code = PyValue.none ∧
       a.city = PyValue.none ∧ a.country = PyValue.none) :=
  Address.toBool_eq_false_iff a

/-- C9: the `name` attribute of a `Customer` is the `AttrProxy` over
`address.name`: writing through the proxy is visible at
`customer.address.name` and writing `address.name` directly is visible
through the proxy; and for every constructor call in which the `address`
argument is not supplied (is `None`), the owned invoice `Address` is
created eagerly, so reading the proxied name on the fresh instance
resolves and returns the `name` constructor argument (still `None` when it
was not given). -/
theorem c9_name_proxy (c : Customer) (v : PyValue) :
    (c.setName v).address.name = v ∧
    Customer.getName { c with address := { c.address with name := v } } = v ∧
    (∀ (id number nin is_company name vat_number currency gln email phone
        mobile_phone url note contact_name contact_email contact_phone
        contact_mobile_phone webshop_customer_number rcocs : PyValue)
       (delivery_address : Option Address) (delivery_method : Option DeliveryMethod)
       (delivery_terms : Option DeliveryTerms)
       (terms_of_payment : Option TermsOfPayment)
       (last_invoice_date last_edited : Option PyDatetime),
      (Customer.init id number nin is_company name vat_number currency gln email
        phone mobile_phone url note contact_name contact_email contact_phone
        contact_mobile_phone Option.none delivery_address delivery_method
        delivery_terms terms_of_payment webshop_customer_number
        last_invoice_date last_edited rcocs).address.name = name ∧
      (Customer.init id number nin is_company name vat_number currency gln email
        phone mobile_phone url note contact_name contact_email contact_phone
        contact_mobile_phone Option.none delivery_address delivery_method
        delivery_terms terms_of_payment webshop_customer_number
        last_invoice_date last_edited rcocs).getName = name) := by
  refine ⟨rfl, rfl, ?_⟩
  intro id0 number0 nin0 isc0 name0 vat0 cur0 gln0 email0 phone0 mob0 url0
    note0 cn0 ce0 cp0 cm0 web0 rev0 deladdr0 delm0 delt0 top0 lid0 led0
  cases name0 <;> exact ⟨rfl, rfl⟩

/-- C10: a payload with a present, non-null `DeliveryAddress1` and a
`DeliveryCountryCode` that fails the country invariant (absent, not two
characters, or not upper-invariant — i.e. `specValidCountry` is false)
makes `Customer.from_json` raise (the delivery `Address` construction at
lines 408-414 validates the code) instead of returning a customer. -/
theorem c10_delivery_country_raises (self : Customer)
    (json : List (String × PyValue))
    (hpresent : dget json "DeliveryAddress1" ≠ PyValue.none)
    (hbad : specValidCountry (dget json "DeliveryCountryCode") = false) :
    isOk (Customer.fromJson self json) = false := by
  have hinit : isOk (Address.init (dget json "DeliveryCustomerName")
      (dget json "DeliveryAddress1") (dget json "DeliveryAddress2")
      (dget json "DeliveryPostalCode") (dget json "DeliveryCity")
      (dget json "DeliveryCountryCode")) = false :=
    (Address.isOk_init hpresent).trans hbad
  unfold Customer.fromJson
  cases hda : Address.init (dget json "DeliveryCustomerName")
      (dget json "DeliveryAddress1") (dget json "DeliveryAddress2")
      (dget json "DeliveryPostalCode") (dget json "DeliveryCity")
      (dget json "DeliveryCountryCode") with
  | error e => rfl
  | ok da => rw [hda] at hinit; simp [isOk] at hinit

/-- C10 witness: the theorem applied to a payload with `DeliveryAddress1`
present and `DeliveryCountryCode` absent. -/
theorem c10_witness :
    isOk (Customer.fromJson Customer.new
      [("DeliveryAddress1", PyValue.str "Main St 1")]) = false :=
  c10_delivery_country_raises Customer.new
    [("DeliveryAddress1", PyValue.str "Main St 1")]
    (fun hh => PyValue.noConfusion hh) rfl

end Vismalib
